import Mathlib

/-!
Shallow embedding of the 2kcomp-league statistics engine
(src/core/milestones.py, src/core/leaders.py, src/core/records.py,
src/core/sportspress.py) and proofs about it.

Python floats are modelled as rationals (only comparisons and copies of
stat values occur in the modelled code, never float-specific rounding);
Python dicts are modelled as insertion-ordered association lists;
Python exceptions are modelled with `Except String`.
-/

set_option maxRecDepth 4000

/-- A Python/JSON-like value, as handled by the extraction code. -/
inductive PyObj where
  | str : String → PyObj
  | int : Int → PyObj
  | float : Rat → PyObj
  | none : PyObj
  | list : List PyObj → PyObj
  | dict : List (String × PyObj) → PyObj

mutual
/-- Structural equality test on `PyObj` (needed for decidable equality
of event payloads). -/
def PyObj.beq : PyObj → PyObj → Bool
  | .str a, .str b => a == b
  | .int a, .int b => a == b
  | .float a, .float b => a == b
  | .none, .none => true
  | .list a, .list b => PyObj.beqList a b
  | .dict a, .dict b => PyObj.beqDict a b
  | _, _ => false
def PyObj.beqList : List PyObj → List PyObj → Bool
  | [], [] => true
  | a :: as, b :: bs => PyObj.beq a b && PyObj.beqList as bs
  | _, _ => false
def PyObj.beqDict : List (String × PyObj) → List (String × PyObj) → Bool
  | [], [] => true
  | (ka, va) :: as, (kb, vb) :: bs => ka == kb && PyObj.beq va vb && PyObj.beqDict as bs
  | _, _ => false
end

mutual
/-- `PyObj.beq` implies equality. -/
def PyObj.eq_of_beq : ∀ (a b : PyObj), PyObj.beq a b = true → a = b
  | .str a, b, h => by
    cases b <;> simp only [PyObj.beq, Bool.false_eq_true] at h
    exact congrArg PyObj.str (by simpa using h)
  | .int a, b, h => by
    cases b <;> simp only [PyObj.beq, Bool.false_eq_true] at h
    exact congrArg PyObj.int (by simpa using h)
  | .float a, b, h => by
    cases b <;> simp only [PyObj.beq, Bool.false_eq_true] at h
    exact congrArg PyObj.float (by simpa using h)
  | .none, b, h => by
    cases b <;> simp only [PyObj.beq, Bool.false_eq_true] at h
    rfl
  | .list a, b, h => by
    cases b <;> simp only [PyObj.beq, Bool.false_eq_true] at h
    rename_i bl
    exact congrArg PyObj.list (PyObj.eqList_of_beq a bl h)
  | .dict a, b, h => by
    cases b <;> simp only [PyObj.beq, Bool.false_eq_true] at h
    rename_i bd
    exact congrArg PyObj.dict (PyObj.eqDict_of_beq a bd h)
def PyObj.eqList_of_beq : ∀ (a b : List PyObj), PyObj.beqList a b = true → a = b
  | [], [], _ => rfl
  | [], _ :: _, h => absurd h (by simp [PyObj.beqList])
  | _ :: _, [], h => absurd h (by simp [PyObj.beqList])
  | a :: as, b :: bs, h => by
    simp only [PyObj.beqList, Bool.and_eq_true] at h
    rw [PyObj.eq_of_beq a b h.1, PyObj.eqList_of_beq as bs h.2]
def PyObj.eqDict_of_beq :
    ∀ (a b : List (String × PyObj)), PyObj.beqDict a b = true → a = b
  | [], [], _ => rfl
  | [], _ :: _, h => absurd h (by simp [PyObj.beqDict])
  | _ :: _, [], h => absurd h (by simp [PyObj.beqDict])
  | (ka, va) :: as, (kb, vb) :: bs, h => by
    simp only [PyObj.beqDict, Bool.and_eq_true] at h
    rw [show ka = kb from by simpa using h.1.1, PyObj.eq_of_beq va vb h.1.2,
      PyObj.eqDict_of_beq as bs h.2]
end

mutual
/-- `PyObj.beq` is reflexive. -/
def PyObj.beq_self : ∀ (a : PyObj), PyObj.beq a a = true
  | .str a => by simp [PyObj.beq]
  | .int a => by simp [PyObj.beq]
  | .float a => by simp [PyObj.beq]
  | .none => rfl
  | .list a => PyObj.beqList_self a
  | .dict a => PyObj.beqDict_self a
def PyObj.beqList_self : ∀ (a : List PyObj), PyObj.beqList a a = true
  | [] => rfl
  | a :: as => by
    simp only [PyObj.beqList, Bool.and_eq_true]
    exact ⟨PyObj.beq_self a, PyObj.beqList_self as⟩
def PyObj.beqDict_self : ∀ (a : List (String × PyObj)), PyObj.beqDict a a = true
  | [] => rfl
  | (k, v) :: as => by
    simp only [PyObj.beqDict, Bool.and_eq_true]
    exact ⟨⟨by simp, PyObj.beq_self v⟩, PyObj.beqDict_self as⟩
end

instance : DecidableEq PyObj := fun a b =>
  if h : PyObj.beq a b = true then isTrue (PyObj.eq_of_beq a b h)
  else isFalse (fun he => h (he ▸ PyObj.beq_self a))

instance {ε α : Type} [DecidableEq ε] [DecidableEq α] : DecidableEq (Except ε α) :=
  fun a b =>
    match a, b with
    | .ok x, .ok y =>
      if h : x = y then isTrue (by rw [h])
      else isFalse (fun hc => by cases hc; exact h rfl)
    | .error x, .error y =>
      if h : x = y then isTrue (by rw [h])
      else isFalse (fun hc => by cases hc; exact h rfl)
    | .ok _, .error _ => isFalse (fun hc => by cases hc)
    | .error _, .ok _ => isFalse (fun hc => by cases hc)

/-- Python truthiness for the modelled values. -/
def pyTruthy : PyObj → Bool
  | .str s => s ≠ ""
  | .int n => n ≠ 0
  | .float q => q ≠ 0
  | .none => false
  | .list l => !l.isEmpty
  | .dict d => !d.isEmpty

/-- Truthiness of an optional value (a `dict.get` result): absent is falsy. -/
def pyTruthyOpt : Option PyObj → Bool
  | Option.none => false
  | some v => pyTruthy v

/-- Python dict assignment `d[k] = v`: replaces the value in place if the
key exists, appends at the end otherwise. -/
def setKey {β : Type} (d : List (String × β)) (k : String) (v : β) :
    List (String × β) :=
  if d.any (fun p => p.1 == k) then
    d.map (fun p => if p.1 == k then (k, v) else p)
  else
    d ++ [(k, v)]

/-- `setKey` at `PyObj` values (dict assignment on event payloads). -/
def dictSet (d : List (String × PyObj)) (k : String) (v : PyObj) :
    List (String × PyObj) :=
  setKey d k v

/-- Python `str()` for the modelled values. Scalars are rendered exactly;
an integral float is rendered with a trailing ".0" as Python does; the
rendering of compound values is abstracted (it never feeds back into the
modelled computations, only into display strings). -/
def pyStr : PyObj → String
  | .str s => s
  | .int n => toString n
  | .float q => if q.den = 1 then toString q.num ++ ".0" else toString q
  | .none => "None"
  | .list _ => "[list]"
  | .dict _ => "[dict]"

/-- Digits of a decimal string, or `Option.none` when empty/non-numeric. -/
def parseDigits (cs : List Char) : Option Nat :=
  if cs.isEmpty || !cs.all Char.isDigit then Option.none
  else some (cs.foldl (fun acc c => acc * 10 + (c.toNat - 48)) 0)

/-- Python `int(s)` on decimal string literals (optional sign). -/
def pyParseInt (s : String) : Option Int :=
  match s.data with
  | '-' :: t => (parseDigits t).map (fun n => -(n : Int))
  | '+' :: t => (parseDigits t).map (fun n => (n : Int))
  | t => (parseDigits t).map (fun n => (n : Int))

/-- Python `int(x)`: parses decimal strings, truncates floats, and raises
`TypeError`/`ValueError` otherwise. -/
def pyToInt : PyObj → Except String Int
  | .int n => .ok n
  | .float q => .ok q.floor  -- truncation toward zero for the nonnegative ids in play
  | .str s =>
    match pyParseInt s with
    | some n => .ok n
    | Option.none => .error "ValueError"
  | _ => .error "TypeError"

/-- Python `len(x)` for the modelled values. -/
def pyLen : PyObj → Except String Nat
  | .str s => .ok s.length
  | .list l => .ok l.length
  | .dict d => .ok d.length
  | _ => .error "TypeError"

/-- Python subscripting `x[i]` with a nonnegative integer index. -/
def pyIndex : PyObj → Nat → Except String PyObj
  | .list l, i =>
    match l.get? i with
    | some v => .ok v
    | Option.none => .error "IndexError"
  | .str s, i =>
    match s.data.get? i with
    | some c => .ok (.str (String.mk [c]))
    | Option.none => .error "IndexError"
  | _, _ => .error "TypeError"

/-- Python `str.isdigit()` (ASCII digits, nonempty). -/
def pyIsDigit (s : String) : Bool :=
  s ≠ "" && s.toList.all Char.isDigit

/-- Python `str.lower()` (character-wise lowercasing). -/
def pyLower (s : String) : String :=
  String.mk (s.data.map Char.toLower)

/-- Python `str.startswith(pre)`. -/
def pyStartsWith (s pre : String) : Bool :=
  pre.data.isPrefixOf s.data

/-- Lexicographic less-or-equal on character lists (Python string
comparison on code points). -/
def charListLe : List Char → List Char → Bool
  | [], _ => true
  | _ :: _, [] => false
  | a :: as, b :: bs => if a = b then charListLe as bs else decide (a < b)

/-- Python `a <= b` on strings. -/
def pyStrLe (a b : String) : Bool :=
  charListLe a.data b.data

/-- Python `str.strip()` (drop leading and trailing whitespace). -/
def pyStrip (s : String) : String :=
  String.mk
    (((s.data.dropWhile Char.isWhitespace).reverse.dropWhile Char.isWhitespace).reverse)

/-- Python `s[:n]` on strings. -/
def pyTake (s : String) (n : Nat) : String :=
  String.mk (s.data.take n)

/-- Split a character list at a separator character. -/
def splitOnChar (cs : List Char) (c : Char) : List (List Char) :=
  cs.foldr
    (fun ch acc =>
      match acc with
      | h :: t => if ch = c then [] :: h :: t else (ch :: h) :: t
      | [] => [[ch]])
    [[]]

/-! ## Milestone detector (src/core/milestones.py) -/

/-- Current season totals for a player (`PlayerTotals` dataclass). -/
structure PlayerTotals where
  player_id : Int
  name : String
  points : Rat := 0
  assists : Rat := 0
  rebounds : Rat := 0
  steals : Rat := 0
  blocks : Rat := 0
  threes_made : Rat := 0
deriving DecidableEq

/-- Milestone thresholds for each stat (the `MILESTONES` dict, in
insertion order). -/
def MILESTONES : List (String × List Int) :=
  [("points", [100, 250, 500, 750, 1000, 1500, 2000]),
   ("assists", [50, 100, 250, 500, 750, 1000]),
   ("rebounds", [50, 100, 250, 500, 750, 1000]),
   ("steals", [25, 50, 100, 200, 300]),
   ("blocks", [25, 50, 100, 200, 300]),
   ("threes_made", [25, 50, 100, 200, 300])]

/-- `MILESTONES.keys()`, in dict insertion order. -/
def milestoneStats : List String := MILESTONES.map (fun p => p.1)

/-- `MILESTONES[stat]` (total on the six keys that occur). -/
def milestoneList (stat : String) : List Int :=
  (MILESTONES.lookup stat).getD []

/-- `getattr(player_totals, stat, 0.0)` for the tracked stats. -/
def getStatTotal (pt : PlayerTotals) (stat : String) : Rat :=
  if stat = "points" then pt.points
  else if stat = "assists" then pt.assists
  else if stat = "rebounds" then pt.rebounds
  else if stat = "steals" then pt.steals
  else if stat = "blocks" then pt.blocks
  else if stat = "threes_made" then pt.threes_made
  else 0

/-- `_get_crossed_thresholds`: thresholds in the open-closed interval
`(previous_total, current_total]`, kept in list order. -/
def getCrossedThresholds (previous_total current_total : Rat)
    (thresholds : List Int) : List Int :=
  thresholds.filter
    (fun t => decide (previous_total < (t : Rat)) && decide ((t : Rat) ≤ current_total))

/-- A milestone notification.  The display `message` string built by
`_format_milestone_message` is presentation-layer only and is not
modelled (no modelled computation reads it back). -/
structure MilestoneNotification where
  player : String
  stat : String
  value : Rat
  threshold : Int
deriving DecidableEq

/-- State maps, as in the persisted JSON: `last_totals` maps a
stringified player id to per-stat totals, `milestones_sent` maps it to
per-stat lists of already-announced thresholds. -/
abbrev LastTotals := List (String × List (String × Rat))

/-- See `LastTotals`. -/
abbrev MilestonesSent := List (String × List (String × List Int))

/-- The body of `detect_milestone_crossings` for one player and one
stat: crossed thresholds not yet in the sent set, one notification each. -/
def playerStatNotifications (last_totals : LastTotals)
    (milestones_sent : MilestonesSent) (player_id : Int) (pt : PlayerTotals)
    (stat : String) : List MilestoneNotification :=
  let previous_totals := (last_totals.lookup (toString player_id)).getD []
  let player_milestones_sent := (milestones_sent.lookup (toString player_id)).getD []
  let current_value := getStatTotal pt stat
  let previous_value := (previous_totals.lookup stat).getD 0
  let crossed_thresholds :=
    getCrossedThresholds previous_value current_value (milestoneList stat)
  let sent_thresholds := (player_milestones_sent.lookup stat).getD []
  let new_thresholds := crossed_thresholds.filter (fun t => !sent_thresholds.contains t)
  new_thresholds.map (fun t => ⟨pt.name, stat, current_value, t⟩)

/-- The per-player loop body of `detect_milestone_crossings`. -/
def playerNotifications (last_totals : LastTotals)
    (milestones_sent : MilestonesSent) (player_id : Int) (pt : PlayerTotals) :
    List MilestoneNotification :=
  milestoneStats.flatMap (playerStatNotifications last_totals milestones_sent player_id pt)

/-- `detect_milestone_crossings(current_totals, last_totals,
milestones_sent)`: notifications accumulated over the players of
`current_totals` (dict iteration order) and the tracked stats. -/
def detect_milestone_crossings (current_totals : List (Int × PlayerTotals))
    (last_totals : LastTotals) (milestones_sent : MilestonesSent) :
    List MilestoneNotification :=
  current_totals.flatMap
    (fun e => playerNotifications last_totals milestones_sent e.1 e.2)

/-- The per-stat totals dict written into `updated_last_totals`. -/
def statTotalsDict (pt : PlayerTotals) : List (String × Rat) :=
  [("points", pt.points), ("assists", pt.assists), ("rebounds", pt.rebounds),
   ("steals", pt.steals), ("blocks", pt.blocks), ("threes_made", pt.threes_made)]

/-- `update_milestone_state`: overwrites `last_totals[str(player_id)]`
with the current totals for every current player, then appends each
notification's threshold under key `str(notification.player)` — the
player NAME, per the source's "Using name as ID for now" — and the
notification's stat. -/
def update_milestone_state (current_totals : List (Int × PlayerTotals))
    (notifications : List MilestoneNotification) (last_totals : LastTotals)
    (milestones_sent : MilestonesSent) : LastTotals × MilestonesSent :=
  let updated_last_totals :=
    current_totals.foldl
      (fun acc e => setKey acc (toString e.1) (statTotalsDict e.2)) last_totals
  let updated_milestones_sent :=
    notifications.foldl
      (fun acc n =>
        let d := (acc.lookup n.player).getD []
        let ts := (d.lookup n.stat).getD []
        setKey acc n.player (setKey d n.stat (ts ++ [n.threshold])))
      milestones_sent
  (updated_last_totals, updated_milestones_sent)

/-! ## Leaders calculator (src/core/leaders.py) -/

/-- Player season statistics (`PlayerStats` pydantic model). -/
structure PlayerStats where
  id : Int
  name : String
  points : Rat := 0
  assists : Rat := 0
  rebounds : Rat := 0
  steals : Rat := 0
  blocks : Rat := 0
  threes_made : Rat := 0
  fgm : Rat := 0
  fga : Rat := 0
  threepm : Rat := 0
  threepa : Rat := 0
  fg_percent : Rat := 0
  threep_percent : Rat := 0
deriving DecidableEq

/-- `getattr(player, stat, 0.0)` over the `PlayerStats` fields. -/
def getPlayerStat (p : PlayerStats) (stat : String) : Rat :=
  if stat = "points" then p.points
  else if stat = "assists" then p.assists
  else if stat = "rebounds" then p.rebounds
  else if stat = "steals" then p.steals
  else if stat = "blocks" then p.blocks
  else if stat = "threes_made" then p.threes_made
  else if stat = "fgm" then p.fgm
  else if stat = "fga" then p.fga
  else if stat = "threepm" then p.threepm
  else if stat = "threepa" then p.threepa
  else if stat = "fg_percent" then p.fg_percent
  else if stat = "threep_percent" then p.threep_percent
  else 0

/-- The ascending order on the Python sort key `(-value, name.lower())`
used by `stat_values.sort(key=lambda x: (-x[1], x[0].lower()))`. -/
def leaderLE (a b : String × Rat) : Prop :=
  -a.2 < -b.2 ∨ (-a.2 = -b.2 ∧ pyStrLe (pyLower a.1) (pyLower b.1) = true)

instance : DecidableRel leaderLE := fun a b =>
  inferInstanceAs
    (Decidable (-a.2 < -b.2 ∨ (-a.2 = -b.2 ∧ pyStrLe (pyLower a.1) (pyLower b.1) = true)))

instance : IsTotal (String × Rat) leaderLE where
  total a b := by
    have htot : ∀ (xs ys : List Char), charListLe xs ys = true ∨ charListLe ys xs = true := by
      intro xs
      induction xs with
      | nil => intro ys; exact Or.inl rfl
      | cons x xs ih =>
        intro ys
        cases ys with
        | nil => exact Or.inr rfl
        | cons y ys =>
          by_cases hxy : x = y
          · subst hxy
            rcases ih ys with h | h
            · exact Or.inl (by simp [charListLe, h])
            · exact Or.inr (by simp [charListLe, h])
          · rcases lt_trichotomy x y with hlt | heq | hgt
            · exact Or.inl (by simp [charListLe, hxy, hlt])
            · exact absurd heq hxy
            · exact Or.inr (by
                have hyx : ¬(y = x) := fun h => hxy h.symm
                simp [charListLe, hyx, hgt])
    rcases lt_trichotomy (-a.2) (-b.2) with h | h | h
    · exact Or.inl (Or.inl h)
    · rcases htot (pyLower a.1).data (pyLower b.1).data with hs | hs
      · exact Or.inl (Or.inr ⟨h, hs⟩)
      · exact Or.inr (Or.inr ⟨h.symm, hs⟩)
    · exact Or.inr (Or.inl h)

instance : IsTrans (String × Rat) leaderLE where
  trans a b c hab hbc := by
    have htr : ∀ (xs ys zs : List Char), charListLe xs ys = true →
        charListLe ys zs = true → charListLe xs zs = true := by
      intro xs
      induction xs with
      | nil => intro ys zs _ _; rfl
      | cons x xs ih =>
        intro ys zs h1 h2
        cases ys with
        | nil => exact absurd h1 (by simp [charListLe])
        | cons y ys =>
          cases zs with
          | nil => exact absurd h2 (by simp [charListLe])
          | cons z zs =>
            by_cases hxy : x = y <;> by_cases hyz : y = z
            · subst hxy; subst hyz
              simp only [charListLe, if_pos rfl] at h1 h2 ⊢
              exact ih ys zs h1 h2
            · subst hxy
              simp only [charListLe, if_pos rfl, if_neg hyz] at h2 ⊢
              exact h2
            · subst hyz
              simp only [charListLe, if_neg hxy] at h1 ⊢
              exact h1
            · simp only [charListLe, if_neg hxy] at h1
              simp only [charListLe, if_neg hyz] at h2
              have hxz : x < z := lt_trans (of_decide_eq_true h1) (of_decide_eq_true h2)
              have hxz' : ¬(x = z) := ne_of_lt hxz
              simp [charListLe, hxz', hxz]
    rcases hab with hab | ⟨hab, hab'⟩ <;> rcases hbc with hbc | ⟨hbc, hbc'⟩
    · exact Or.inl (hab.trans hbc)
    · exact Or.inl (hbc ▸ hab)
    · exact Or.inl (hab ▸ hbc)
    · exact Or.inr ⟨hab.trans hbc, htr _ _ _ hab' hbc'⟩

/-- `_stable_sort_leaders(players, stat)`: keep `(name, value)` pairs
with positive value, sorted by value descending then lowercased name
ascending (Python stable sort by key `(-value, name.lower())`). -/
def _stable_sort_leaders (players : List PlayerStats) (stat : String) :
    List (String × Rat) :=
  let stat_values := players.filterMap
    (fun p =>
      let value := getPlayerStat p stat
      if 0 < value then some (p.name, value) else none)
  List.insertionSort leaderLE stat_values

/-- A leader entry (`LeaderEntry` pydantic model). -/
structure LeaderEntry where
  name : String
  value : Rat
deriving DecidableEq

/-- Leaders for all six stats (`LeadersData` pydantic model). -/
structure LeadersData where
  points : List LeaderEntry := []
  assists : List LeaderEntry := []
  rebounds : List LeaderEntry := []
  steals : List LeaderEntry := []
  blocks : List LeaderEntry := []
  threes_made : List LeaderEntry := []
deriving DecidableEq

/-- The per-stat body of the `top_n_season_leaders` loop:
`[LeaderEntry(name, value) for name, value in sorted_players[:n]]`. -/
def leadersFor (players : List PlayerStats) (stat : String) (n : Nat) :
    List LeaderEntry :=
  ((_stable_sort_leaders players stat).take n).map (fun p => ⟨p.1, p.2⟩)

/-- `top_n_season_leaders`, after the season fetch: top-N leaders per
tracked stat. -/
def top_n_season_leaders (players : List PlayerStats) (n : Nat) : LeadersData :=
  { points := leadersFor players "points" n,
    assists := leadersFor players "assists" n,
    rebounds := leadersFor players "rebounds" n,
    steals := leadersFor players "steals" n,
    blocks := leadersFor players "blocks" n,
    threes_made := leadersFor players "threes_made" n }

/-! ## Records tracker (src/core/records.py) -/

/-- Candidate for a single-game record (`RecordCandidate` dataclass). -/
structure RecordCandidate where
  stat : String
  value : Rat
  holder : String
  game : String
  date : String
  player_id : Option Int := Option.none
  team_id : Option Int := Option.none
  opp_team_id : Option Int := Option.none
  game_url : Option String := Option.none
  player_url : Option String := Option.none
deriving DecidableEq

/-- A single-game record (`SingleGameRecord` pydantic model). -/
structure SingleGameRecord where
  stat : String
  value : Rat
  holder : String
  game : String
  date : String
  player_id : Option Int := Option.none
  team_id : Option Int := Option.none
  opp_team_id : Option Int := Option.none
  game_url : Option String := Option.none
  player_url : Option String := Option.none
deriving DecidableEq

/-- Python truthiness filter on an optional int field
(`if candidate.player_id:` — both `None` and `0` are falsy). -/
def truthyOptInt (o : Option Int) : Option Int :=
  match o with
  | some n => if n = 0 then Option.none else some n
  | Option.none => Option.none

/-- Python truthiness filter on an optional string field. -/
def truthyOptStr (o : Option String) : Option String :=
  match o with
  | some s => if s = "" then Option.none else some s
  | Option.none => Option.none

/-- The record built from a candidate inside `_try_update_max`
(optional fields copied only when truthy). -/
def candidateRecord (candidate : RecordCandidate) : SingleGameRecord :=
  { stat := candidate.stat,
    value := candidate.value,
    holder := candidate.holder,
    game := candidate.game,
    date := candidate.date,
    player_id := truthyOptInt candidate.player_id,
    team_id := truthyOptInt candidate.team_id,
    opp_team_id := truthyOptInt candidate.opp_team_id,
    game_url := truthyOptStr candidate.game_url,
    player_url := truthyOptStr candidate.player_url }

/-- `_try_update_max(current, candidate)`: replace when there is no
current record or the candidate's value is strictly greater. -/
def _try_update_max (current : Option SingleGameRecord)
    (candidate : RecordCandidate) : Option SingleGameRecord :=
  match current with
  | Option.none => some (candidateRecord candidate)
  | some r =>
    if r.value < candidate.value then some (candidateRecord candidate) else some r

/-- Double-double achievement (`DoubleDouble` pydantic model). -/
structure DoubleDouble where
  player : String
  game : String
  date : String
  categories : List String
  values : List (String × Rat)
  player_id : Option Int := Option.none
  team_id : Option Int := Option.none
  opp_team_id : Option Int := Option.none
  game_url : Option String := Option.none
  player_url : Option String := Option.none
deriving DecidableEq

/-- Triple-double achievement (`TripleDouble` pydantic model). -/
structure TripleDouble where
  player : String
  game : String
  date : String
  categories : List String
  values : List (String × Rat)
  player_id : Option Int := Option.none
  team_id : Option Int := Option.none
  opp_team_id : Option Int := Option.none
  game_url : Option String := Option.none
  player_url : Option String := Option.none
deriving DecidableEq

/-- Complete records data (`RecordsData` pydantic model). -/
structure RecordsData where
  points : Option SingleGameRecord := Option.none
  rebounds : Option SingleGameRecord := Option.none
  assists : Option SingleGameRecord := Option.none
  steals : Option SingleGameRecord := Option.none
  blocks : Option SingleGameRecord := Option.none
  threes_made : Option SingleGameRecord := Option.none
  fg_percent : Option SingleGameRecord := Option.none
  threep_percent : Option SingleGameRecord := Option.none
  double_doubles : List DoubleDouble := []
  triple_doubles : List TripleDouble := []
deriving DecidableEq

/-- A player row extracted from an event (`EventPlayerRow` pydantic
model). -/
structure EventPlayerRow where
  name : String
  team : String
  opp : String
  game : String
  date : String
  points : Rat := 0
  rebounds : Rat := 0
  assists : Rat := 0
  steals : Rat := 0
  blocks : Rat := 0
  threes_made : Rat := 0
  fgm : Rat := 0
  fga : Rat := 0
  threepm : Rat := 0
  threepa : Rat := 0
  fg_percent : Rat := 0
  threep_percent : Rat := 0
  player_id : Option Int := Option.none
  team_id : Option Int := Option.none
  opp_team_id : Option Int := Option.none
  game_url : Option String := Option.none
deriving DecidableEq

/-- The five tracked count statistics checked by
`_check_double_triple_doubles`, with the row's values, in source order. -/
def statsToCheck (row : EventPlayerRow) : List (String × Rat) :=
  [("points", row.points), ("rebounds", row.rebounds),
   ("assists", row.assists), ("steals", row.steals), ("blocks", row.blocks)]

/-- The categories in which the row reached a double-digit value. -/
def doubleDigitCategories (row : EventPlayerRow) : List (String × Rat) :=
  (statsToCheck row).filter (fun p => decide (10 ≤ p.2))

/-- `_check_double_triple_doubles(records, row, ...)`: append a
triple-double for 3+ double-digit categories, else a double-double for
exactly 2, else leave the records unchanged. -/
def _check_double_triple_doubles (records : RecordsData) (row : EventPlayerRow)
    (player_id : Option Int) (team_id : Option Int) (opp_team_id : Option Int)
    (game_url : Option String) : RecordsData :=
  let dd := doubleDigitCategories row
  let categories := dd.map (fun p => p.1)
  let values := dd
  if 3 ≤ categories.length then
    { records with
      triple_doubles := records.triple_doubles ++
        [{ player := row.name, game := row.game, date := row.date,
           categories := categories, values := values,
           player_id := player_id, team_id := team_id,
           opp_team_id := opp_team_id, game_url := game_url }] }
  else if 2 ≤ categories.length then
    { records with
      double_doubles := records.double_doubles ++
        [{ player := row.name, game := row.game, date := row.date,
           categories := categories, values := values,
           player_id := player_id, team_id := team_id,
           opp_team_id := opp_team_id, game_url := game_url }] }
  else records

/-- `settings.MIN_FGA_FOR_FG_PERCENT` (config default). -/
def MIN_FGA_FOR_FG_PERCENT : Rat := 10

/-- `settings.MIN_3PA_FOR_3P_PERCENT` (config default). -/
def MIN_3PA_FOR_3P_PERCENT : Rat := 6

/-- The per-row body of the `compute_single_game_records` scan: try to
improve the six count-stat records, the two attempt-gated percentage
records, then check double/triple doubles. -/
def processRow (records : RecordsData) (row : EventPlayerRow) : RecordsData :=
  let player_id := row.player_id
  let team_id := row.team_id
  let opp_team_id := row.opp_team_id
  let game_url := row.game_url
  let mk : String → Rat → RecordCandidate := fun stat value =>
    { stat := stat, value := value, holder := row.name, game := row.game,
      date := row.date, player_id := player_id, team_id := team_id,
      opp_team_id := opp_team_id, game_url := game_url }
  let records := { records with points := _try_update_max records.points (mk "points" row.points) }
  let records := { records with rebounds := _try_update_max records.rebounds (mk "rebounds" row.rebounds) }
  let records := { records with assists := _try_update_max records.assists (mk "assists" row.assists) }
  let records := { records with steals := _try_update_max records.steals (mk "steals" row.steals) }
  let records := { records with blocks := _try_update_max records.blocks (mk "blocks" row.blocks) }
  let records := { records with threes_made := _try_update_max records.threes_made (mk "threes_made" row.threes_made) }
  let records :=
    if MIN_FGA_FOR_FG_PERCENT ≤ row.fga then
      { records with fg_percent := _try_update_max records.fg_percent (mk "fg_percent" row.fg_percent) }
    else records
  let records :=
    if MIN_3PA_FOR_3P_PERCENT ≤ row.threepa then
      { records with threep_percent := _try_update_max records.threep_percent (mk "threep_percent" row.threep_percent) }
    else records
  _check_double_triple_doubles records row player_id team_id opp_team_id game_url

/-! ## Row extractor (src/core/sportspress.py) -/

/-- Python `float(s)` on plain decimal literals (optional sign, digits,
optional fraction part); exponent and special forms are out of the
modelled payload universe. -/
def pyParseFloat (s : String) : Option Rat :=
  let (neg, body) :=
    match s.data with
    | '-' :: t => (true, t)
    | '+' :: t => (false, t)
    | t => (false, t)
  let mk : Nat → Nat → Nat → Option Rat := fun ip fp fdigits =>
    let q : Rat := mkRat ((ip : Int) * (10 : Int) ^ fdigits + (fp : Int))
      ((10 : Nat) ^ fdigits)
    some (if neg then -q else q)
  match splitOnChar body '.' with
  | [a] =>
    match parseDigits a with
    | some n => mk n 0 0
    | Option.none => Option.none
  | [a, b] =>
    match parseDigits a, parseDigits b with
    | some n, some f => mk n f b.length
    | some n, Option.none => if b.isEmpty then mk n 0 0 else Option.none
    | Option.none, some f => if a.isEmpty then mk 0 f b.length else Option.none
    | Option.none, Option.none => Option.none
  | _ => Option.none

/-- `_safe_extract_float(data, key)`: `data.get(key, 0.0)`, with `None`,
`""` and `"null"` mapped to the default and any `float()` failure
(ValueError/TypeError) swallowed to the default. -/
def _safe_extract_float (data : List (String × PyObj)) (key : String) : Rat :=
  match data.lookup key with
  | Option.none => 0
  | some v =>
    match v with
    | .none => 0
    | .str "" => 0
    | .str "null" => 0
    | .int n => (n : Rat)
    | .float q => q
    | .str s => (pyParseFloat s).getD 0
    | .list _ => 0
    | .dict _ => 0

/-- pydantic coercion of an `Optional[int]` field value. -/
def pyOptIntField : Option PyObj → Except String (Option Int)
  | Option.none => .ok Option.none
  | some .none => .ok Option.none
  | some (.int n) => .ok (some n)
  | some (.float q) => .ok (some q.floor)
  | some (.str s) =>
    match pyParseInt s with
    | some n => .ok (some n)
    | Option.none => .error "ValidationError"
  | some _ => .error "ValidationError"

/-- `_create_player_row(row, side, team_a, team_b, date, game_url)`.
The stats dict built from `EVENT_KEY_MAP` carries the keys
`turnovers`/`threes_att`, which are not `EventPlayerRow` fields and are
dropped by pydantic, while the fields `threepm`/`threepa` are never
passed and keep their `0` defaults. -/
def _create_player_row (row : List (String × PyObj)) (side : String)
    (team_a team_b date : String) (game_url : PyObj) :
    Except String EventPlayerRow := do
  let nameVal :=
    if pyTruthyOpt (row.lookup "name") then (row.lookup "name").getD .none
    else if pyTruthyOpt (row.lookup "player") then (row.lookup "player").getD .none
    else if pyTruthyOpt (row.lookup "title") then (row.lookup "title").getD .none
    else .str "Unknown"
  let name := pyStr nameVal
  let sideL := pyLower side
  let teamOpp :=
    if pyStartsWith sideL "home" || pyStartsWith sideL "a" || pyStartsWith sideL "team_a"
    then (team_a, team_b) else (team_b, team_a)
  let team := teamOpp.1
  let opp := teamOpp.2
  let game :=
    if team ≠ "" ∧ opp ≠ "" then pyStrip (team ++ " vs " ++ opp)
    else "Unknown vs Unknown"
  let player_id ← pyOptIntField (row.lookup "player_id")
  let team_id ← pyOptIntField (row.lookup "team_id")
  let opp_team_id ← pyOptIntField (row.lookup "opp_team_id")
  pure
    { name := name, team := team, opp := opp, game := game, date := date,
      points := _safe_extract_float row "pts",
      rebounds := _safe_extract_float row "rebtwo",
      assists := _safe_extract_float row "ast",
      steals := _safe_extract_float row "stl",
      blocks := _safe_extract_float row "blk",
      threes_made := _safe_extract_float row "threepm",
      fgm := _safe_extract_float row "fgm",
      fga := _safe_extract_float row "fga",
      threepm := 0,
      threepa := 0,
      fg_percent := _safe_extract_float row "fgpercent",
      threep_percent := _safe_extract_float row "threeppercent",
      player_id := player_id, team_id := team_id, opp_team_id := opp_team_id,
      game_url := if pyTruthy game_url then some (pyStr game_url) else Option.none }

/-- The stat keys probed by the performance-format qualifier
`any(player_stats.get(stat) for stat in [...])`. -/
def perfStatKeys : List String :=
  ["pts", "rebtwo", "ast", "stl", "blk", "fgm", "fga", "threepm", "threepa"]

/-- One qualifying player entry of the performance map: build the
`row_data` dict (`int()` on ids may raise), resolve the side and
opponent from `teams` (indexing may raise), and create the row. -/
def perfPlayerRow (team_id player_id : String) (ps : List (String × PyObj))
    (teamsVal : PyObj) (team_a team_b date : String) (game_url : PyObj) :
    Except String EventPlayerRow := do
  let pidInt ← pyToInt (.str player_id)
  let tidInt ← pyToInt (.str team_id)
  let getStat : String → PyObj := fun k => (ps.lookup k).getD (.str "0")
  let row_data : List (String × PyObj) :=
    [("name", .str ("Player " ++ player_id)),
     ("player_id", .int pidInt),
     ("team_id", .int tidInt),
     ("pts", getStat "pts"), ("rebtwo", getStat "rebtwo"),
     ("ast", getStat "ast"), ("stl", getStat "stl"), ("blk", getStat "blk"),
     ("fgm", getStat "fgm"), ("fga", getStat "fga"),
     ("threepm", getStat "threepm"), ("threepa", getStat "threepa"),
     ("fgpercent", getStat "fgpercent"),
     ("threeppercent", getStat "threeppercent")]
  let t0 ← pyIndex teamsVal 0
  let sideOpp ←
    if team_id == pyStr t0 then do
      let t1 ← pyIndex teamsVal 1
      pure ("home", t1)
    else
      pure ("away", t0)
  let oppInt ← pyToInt sideOpp.2
  let row_data := row_data ++ [("opp_team_id", .int oppInt)]
  _create_player_row row_data sideOpp.1 team_a team_b date game_url

/-- The player-level loop body of the performance path: skip the "0"
header key, keep dict-shaped entries with at least one truthy stat. -/
def perfPlayerStep (tk : String) (teamsVal : PyObj)
    (team_a team_b date : String) (game_url : PyObj)
    (acc2 : List EventPlayerRow) (pe : String × PyObj) :
    Except String (List EventPlayerRow) :=
  if pe.1 == "0" then pure acc2
  else
    match pe.2 with
    | .dict ps =>
      if perfStatKeys.any (fun k => pyTruthyOpt (ps.lookup k)) then do
        let r ← perfPlayerRow tk pe.1 ps teamsVal team_a team_b date game_url
        pure (acc2 ++ [r])
      else pure acc2
    | _ => pure acc2

/-- The team-level loop body of the performance path: skip the "0"
header key, walk dict-shaped team performances. -/
def perfTeamStep (teamsVal : PyObj) (team_a team_b date : String)
    (game_url : PyObj) (acc : List EventPlayerRow) (e : String × PyObj) :
    Except String (List EventPlayerRow) :=
  if e.1 == "0" then pure acc
  else
    match e.2 with
    | .dict players =>
      players.foldlM (perfPlayerStep e.1 teamsVal team_a team_b date game_url) acc
    | _ => pure acc

/-- The performance-format double loop of `_extract_rows_from_event`:
skip `"0"` team and player keys, keep qualifying player entries. -/
def perfRowsOf (entries : List (String × PyObj)) (teamsVal : PyObj)
    (team_a team_b date : String) (game_url : PyObj) :
    Except String (List EventPlayerRow) :=
  entries.foldlM (perfTeamStep teamsVal team_a team_b date game_url) []

/-- The boxscore-row mutation and row creation shared by both boxscore
shapes: set `row["player_id"]` when a truthy id is found (`int` when its
string is all digits, else `None`), always set `row["team_id"]` and
`row["opp_team_id"]` from `teams`, then build the player row.  Returns
the row together with the mutated dict. -/
def boxRowProcess (rd : List (String × PyObj)) (side : String)
    (teamsVal : PyObj) (team_a team_b date : String) (game_url : PyObj) :
    Except String (EventPlayerRow × List (String × PyObj)) := do
  let pidVal : Option PyObj :=
    if pyTruthyOpt (rd.lookup "id") then rd.lookup "id"
    else if pyTruthyOpt (rd.lookup "player_id") then rd.lookup "player_id"
    else rd.lookup "player"
  let rd1 ←
    if pyTruthyOpt pidVal then
      let v := pidVal.getD .none
      if pyIsDigit (pyStr v) then do
        let n ← pyToInt v
        pure (dictSet rd "player_id" (.int n))
      else pure (dictSet rd "player_id" .none)
    else pure rd
  let sideL := pyLower side
  let tids ←
    if sideL == "home" || sideL == "a" then do
      let t ← if pyTruthy teamsVal then pyIndex teamsVal 0 else pure .none
      let l ← pyLen teamsVal
      let o ← if 1 < l then pyIndex teamsVal 1 else pure .none
      pure (t, o)
    else do
      let l ← pyLen teamsVal
      let t ← if 1 < l then pyIndex teamsVal 1 else pure .none
      let o ← if pyTruthy teamsVal then pyIndex teamsVal 0 else pure .none
      pure (t, o)
  let rd2 := dictSet (dictSet rd1 "team_id" tids.1) "opp_team_id" tids.2
  let row ← _create_player_row rd2 side team_a team_b date game_url
  pure (row, rd2)

/-- Process one truthy boxscore candidate, returning the extracted rows
and the candidate value with its row dicts mutated. -/
def processBox (box : PyObj) (teamsVal : PyObj) (team_a team_b date : String)
    (game_url : PyObj) : Except String (List EventPlayerRow × PyObj) :=
  match box with
  | .dict entries => do
    let res ← entries.foldlM
      (fun acc e =>
        match e.2 with
        | .list rowList => do
          let inner ← rowList.foldlM
            (fun acc2 r =>
              match r with
              | .dict rd => do
                let pr ← boxRowProcess rd e.1 teamsVal team_a team_b date game_url
                pure (acc2.1 ++ [pr.1], acc2.2 ++ [PyObj.dict pr.2])
              | _ => pure (acc2.1, acc2.2 ++ [r]))
            (acc.1, ([] : List PyObj))
          pure (inner.1, acc.2 ++ [(e.1, PyObj.list inner.2)])
        | _ => pure (acc.1, acc.2 ++ [e]))
      (([] : List EventPlayerRow), ([] : List (String × PyObj)))
    pure (res.1, .dict res.2)
  | .list rowList => do
    let res ← rowList.foldlM
      (fun acc r =>
        match r with
        | .dict rd => do
          let team := pyStr ((rd.lookup "team").getD (.str ""))
          let side := if team == team_a then "home" else "away"
          let pr ← boxRowProcess rd side teamsVal team_a team_b date game_url
          pure (acc.1 ++ [pr.1], acc.2 ++ [PyObj.dict pr.2])
        | _ => pure (acc.1, acc.2 ++ [r]))
      (([] : List EventPlayerRow), ([] : List PyObj))
    pure (res.1, .list res.2)
  | _ => pure ([], box)

/-- `event.get(key, {}).get("boxscore")`: raises AttributeError when the
outer value is present but not a dict. -/
def nestedBoxLookup (event : List (String × PyObj)) (key : String) :
    Except String (Option PyObj) :=
  match event.lookup key with
  | Option.none => pure Option.none
  | some (.dict m) => pure (m.lookup "boxscore")
  | some _ => .error "AttributeError"

/-- The dict stored under `key` in the event (used to splice the mutated
boxscore back into `meta`/`results`; only reached when that value is a
dict). -/
def innerDictOf (event : List (String × PyObj)) (key : String) :
    List (String × PyObj) :=
  match event.lookup key with
  | some (.dict m) => m
  | _ => []

/-- The event date context (`str(event[field])[:10]` for the first
truthy of `date`/`date_gmt`). -/
def eventDate (event : List (String × PyObj)) : String :=
  if pyTruthyOpt (event.lookup "date") then
    pyTake (pyStr ((event.lookup "date").getD .none)) 10
  else if pyTruthyOpt (event.lookup "date_gmt") then
    pyTake (pyStr ((event.lookup "date_gmt").getD .none)) 10
  else ""

/-- `event.get("link", "")`. -/
def eventGameUrl (event : List (String × PyObj)) : PyObj :=
  (event.lookup "link").getD (.str "")

/-- `event.get("teams", [])`. -/
def eventTeamsVal (event : List (String × PyObj)) : PyObj :=
  (event.lookup "teams").getD (.list [])

/-- The `(team_a, team_b)` display names: from the first two team ids
when `teams` is a list of length at least 2, else from the
`team_a`/`team_b` fields. -/
def eventTeamNames (event : List (String × PyObj)) : String × String :=
  match eventTeamsVal event with
  | .list (t0 :: t1 :: _) => ("Team " ++ pyStr t0, "Team " ++ pyStr t1)
  | _ => (pyStr ((event.lookup "team_a").getD (.str "Team A")),
          pyStr ((event.lookup "team_b").getD (.str "Team B")))

/-- The performance-format path of `_extract_rows_from_event`: runs only
when `performance` is a truthy dict. -/
def perfStageRows (event : List (String × PyObj)) :
    Except String (List EventPlayerRow) :=
  match event.lookup "performance" with
  | some (.dict entries) =>
    if !entries.isEmpty then
      perfRowsOf entries (eventTeamsVal event) (eventTeamNames event).1
        (eventTeamNames event).2 (eventDate event) (eventGameUrl event)
    else pure []
  | _ => pure []

/-- The boxscore-fallback tail of `_extract_rows_from_event`: when the
performance path yielded no rows, process the first truthy candidate
(its mutated value is spliced back into the event), else return the
event unchanged. -/
def boxFallbackStage (event : List (String × PyObj))
    (rows : List EventPlayerRow) (metaBox box1 resBox : Option PyObj)
    (teamsVal : PyObj) (team_a team_b date : String) (game_url : PyObj) :
    Except String (List EventPlayerRow × List (String × PyObj)) :=
  if rows.isEmpty then
    if pyTruthyOpt metaBox then
      match processBox (metaBox.getD .none) teamsVal team_a team_b date game_url with
      | .error e => .error e
      | .ok pr =>
        .ok (pr.1, dictSet event "meta"
          (.dict (dictSet (innerDictOf event "meta") "boxscore" pr.2)))
    else if pyTruthyOpt box1 then
      match processBox (box1.getD .none) teamsVal team_a team_b date game_url with
      | .error e => .error e
      | .ok pr => .ok (pr.1, dictSet event "boxscore" pr.2)
    else if pyTruthyOpt resBox then
      match processBox (resBox.getD .none) teamsVal team_a team_b date game_url with
      | .error e => .error e
      | .ok pr =>
        .ok (pr.1, dictSet event "results"
          (.dict (dictSet (innerDictOf event "results") "boxscore" pr.2)))
    else .ok (rows, event)
  else
    .ok (rows, event)

/-- `_extract_rows_from_event(event)`: date/teams/url context, then the
performance-format path (skipping `"0"` team and player keys), then —
only when that yielded no rows — the first truthy boxscore candidate.
The returned event dict reflects the in-place mutation of the processed
boxscore row dicts. -/
def _extract_rows_from_event (event : List (String × PyObj)) :
    Except String (List EventPlayerRow × List (String × PyObj)) :=
  match perfStageRows event with
  | .error e => .error e
  | .ok rows =>
    match nestedBoxLookup event "meta" with
    | .error e => .error e
    | .ok metaBox =>
      match nestedBoxLookup event "results" with
      | .error e => .error e
      | .ok resBox =>
        boxFallbackStage event rows metaBox (event.lookup "boxscore") resBox
          (eventTeamsVal event) (eventTeamNames event).1 (eventTeamNames event).2
          (eventDate event) (eventGameUrl event)

/-- `compute_single_game_records`, after the fetch stage.  The paginated
fetch (primary loop plus `fetch_events` fallback) either yields the
event list or fails outright, in which case the bare `RecordsData()` is
returned; each event is extracted inside a `try`/`except` that skips
just that event on failure. -/
def compute_single_game_records
    (fetched : Except String (List (List (String × PyObj)))) : RecordsData :=
  match fetched with
  | .error _ => {}
  | .ok events =>
    events.foldl
      (fun recs ev =>
        match _extract_rows_from_event ev with
        | .error _ => recs
        | .ok pr => pr.1.foldl processRow recs)
      {}

/-- Remove the "0"-keyed player entries from one team's performance
dict. -/
def stripTeamEntry (e : String × PyObj) : String × PyObj :=
  match e.2 with
  | .dict players => (e.1, PyObj.dict (players.filter (fun pe => pe.1 ≠ "0")))
  | _ => e

/-- The event with every `"0"`-keyed player entry removed from the
performance map (the header-sentinel rows of the nested encoding). -/
def stripZeroPlayers (event : List (String × PyObj)) :
    List (String × PyObj) :=
  match event.lookup "performance" with
  | some (.dict entries) =>
    dictSet event "performance" (.dict (entries.map stripTeamEntry))
  | _ => event

/-- Folding record candidates through `_try_update_max` (the per-event
scan of `compute_single_game_records`, restricted to one statistic). -/
def foldRecords (init : Option SingleGameRecord)
    (cands : List RecordCandidate) : Option SingleGameRecord :=
  cands.foldl _try_update_max init

/-- The value stored in an optional record, with `⊥` for an unset one. -/
def recordValue : Option SingleGameRecord → WithBot Rat
  | Option.none => ⊥
  | some r => (r.value : WithBot Rat)

/-- No boxscore candidate of the event is truthy, so the fallback path
leaves the event untouched (an erroring `meta`/`results` lookup aborts
extraction before any mutation, so it is irrelevant here). -/
def noTruthyBox (event : List (String × PyObj)) : Bool :=
  let metaBox := match nestedBoxLookup event "meta" with
    | .ok o => o
    | .error _ => Option.none
  let resBox := match nestedBoxLookup event "results" with
    | .ok o => o
    | .error _ => Option.none
  !pyTruthyOpt metaBox && !pyTruthyOpt (event.lookup "boxscore") &&
    !pyTruthyOpt resBox

/-- Keys of the single boxscore row of a one-row event (projection used
to exhibit the in-place mutation). -/
def firstBoxRowKeys (event : List (String × PyObj)) : List String :=
  match event.lookup "boxscore" with
  | some (.dict [(_, .list [.dict rd])]) => rd.map (fun p => p.1)
  | _ => []

/-! ## Concrete inputs used by the scenario conjuncts, witnesses and
counterexamples -/

/-- Scenario C row: points 15, rebounds 11, assists 4, steals 2, blocks 1. -/
def scenarioCRow : EventPlayerRow :=
  { name := "P", team := "T", opp := "O", game := "T vs O", date := "2026-01-01",
    points := 15, rebounds := 11, assists := 4, steals := 2, blocks := 1 }

/-- An incumbent points record of value 40. -/
def rec40 : SingleGameRecord :=
  { stat := "points", value := 40, holder := "H", game := "G", date := "D" }

/-- A candidate with 40 points (ties `rec40`). -/
def cand40 : RecordCandidate :=
  { stat := "points", value := 40, holder := "A", game := "G1", date := "D1" }

/-- A candidate with 55 points. -/
def cand55 : RecordCandidate :=
  { stat := "points", value := 55, holder := "B", game := "G2", date := "D2" }

/-- Scenario B player: 125 points this pass. -/
def alice : PlayerTotals := { player_id := 1, name := "Alice", points := 125 }

/-- Scenario B current totals. -/
def currAlice : List (Int × PlayerTotals) := [(1, alice)]

/-- Scenario B previous totals: 95 points. -/
def lastAlice : LastTotals := [("1", [("points", 95)])]

/-- A player whose display name collides with the stale id key "7". -/
def bobNamedSeven : PlayerTotals := { player_id := 42, name := "7", points := 125 }

/-- Current totals containing only `bobNamedSeven` (player id 42). -/
def currBob : List (Int × PlayerTotals) := [(42, bobNamedSeven)]

/-- State with a stale player under id key "7" (absent from the current
totals). -/
def lastStale : LastTotals := [("7", [("points", 500)])]

/-- See `lastStale`. -/
def sentStale : MilestonesSent := [("7", [("points", [100])])]

/-- Scenario A rows: A and B with 30 points, C with 25. -/
def rowsABC : List PlayerStats :=
  [{ id := 1, name := "A", points := 30 },
   { id := 2, name := "B", points := 30 },
   { id := 3, name := "C", points := 25 }]

/-- A boxscore-format event whose only row carries the header-sentinel
player id "0". -/
def evZeroId : List (String × PyObj) :=
  [("teams", .list [.int 10, .int 20]),
   ("boxscore", .dict [("home", .list
     [.dict [("id", .str "0"), ("name", .str "Header"), ("pts", .str "12")]])])]

/-- A minimal boxscore-format event (no ids, no teams). -/
def evBoxMin : List (String × PyObj) :=
  [("boxscore", .dict [("home", .list
     [.dict [("name", .str "X"), ("pts", .str "5")]])])]

/-- A performance-format event with a header-sentinel team row and a
header-sentinel player row next to a real player entry. -/
def evPerf : List (String × PyObj) :=
  [("teams", .list [.int 10, .int 20]),
   ("performance", .dict
     [("0", .dict [("0", .dict [("pts", .str "10")])]),
      ("10", .dict
        [("0", .dict [("pts", .str "99")]),
         ("77", .dict [("pts", .str "31"), ("rebtwo", .str "4")])])])]

/-- An event whose `meta` field is a list: `event.get("meta", {}) .get`
raises AttributeError and the whole extraction fails. -/
def evBadMeta : List (String × PyObj) := [("meta", .list [.int 1])]

/-- A well-formed performance event used alongside `evBadMeta` in the
skip-one-event witness. -/
def evGood : List (String × PyObj) :=
  [("teams", .list [.int 1, .int 2]),
   ("performance", .dict
     [("1", .dict [("5", .dict [("pts", .str "63")])])])]

/-- The row extracted from `evPerf` (player 77 of team 10). -/
def perfDemoRow : EventPlayerRow :=
  { name := "Player 77", team := "Team 10", opp := "Team 20",
    game := "Team 10 vs Team 20", date := "", points := 31, rebounds := 4,
    player_id := some 77, team_id := some 10, opp_team_id := some 20 }

/-! ## Theorems -/

/-- Helper: `recordValue` of one `_try_update_max` step is the max of
the incumbent value and the candidate value. -/
theorem recordValue_try_update (cur : Option SingleGameRecord)
    (c : RecordCandidate) :
    recordValue (_try_update_max cur c)
      = max (recordValue cur) ((c.value : WithBot Rat)) := by
  cases cur with
  | none => simp [recordValue, _try_update_max, candidateRecord]
  | some r =>
    by_cases h : r.value < c.value
    · simp only [_try_update_max, if_pos h, recordValue, candidateRecord]
      exact (max_eq_right (WithBot.coe_le_coe.mpr h.le)).symm
    · simp only [_try_update_max, if_neg h, recordValue]
      exact (max_eq_left (WithBot.coe_le_coe.mpr (not_lt.mp h))).symm

/-- Helper: the fold of candidates computes the running max of their
values. -/
theorem recordValue_foldRecords (cands : List RecordCandidate) :
    ∀ init, recordValue (foldRecords init cands)
      = (cands.map fun c => ((c.value : Rat) : WithBot Rat)).foldl max
          (recordValue init) := by
  induction cands with
  | nil => intro init; rfl
  | cons c cs ih =>
    intro init
    have h1 : foldRecords init (c :: cs) = foldRecords (_try_update_max init c) cs := rfl
    rw [h1, ih, List.map_cons, List.foldl_cons, recordValue_try_update]

/-- Helper: a fold of `max` never goes below its starting point. -/
theorem le_foldl_max : ∀ (l : List (WithBot Rat)) (b : WithBot Rat),
    b ≤ l.foldl max b := by
  intro l
  induction l with
  | nil => intro b; exact le_refl b
  | cons x xs ih =>
    intro b
    calc b ≤ max b x := le_max_left b x
    _ ≤ xs.foldl max (max b x) := ih (max b x)

/-- C6: the record value never decreases as candidates are folded in,
and the final value is the maximum of the candidate values, independent
of processing order. -/
theorem record_fold_monotone_and_order_independent :
    ∀ (init : Option SingleGameRecord) (c : RecordCandidate)
      (cs cs₁ cs₂ : List RecordCandidate),
      recordValue init ≤ recordValue (_try_update_max init c)
      ∧ recordValue init ≤ recordValue (foldRecords init cs)
      ∧ recordValue (foldRecords Option.none cs)
          = (cs.map fun cd => ((cd.value : Rat) : WithBot Rat)).foldl max ⊥
      ∧ (cs₁.Perm cs₂ →
          recordValue (foldRecords Option.none cs₁)
            = recordValue (foldRecords Option.none cs₂)) := by
  intro init c cs cs₁ cs₂
  haveI : RightCommutative (max : WithBot Rat → WithBot Rat → WithBot Rat) :=
    ⟨fun b a₁ a₂ => by rw [max_assoc, max_comm a₁ a₂, ← max_assoc]⟩
  refine ⟨?_, ?_, ?_, ?_⟩
  · rw [recordValue_try_update]; exact le_max_left _ _
  · rw [recordValue_foldRecords]; exact le_foldl_max _ _
  · rw [recordValue_foldRecords]; rfl
  · intro hp
    rw [recordValue_foldRecords, recordValue_foldRecords]
    exact (hp.map _).foldl_eq ⊥

/-- Witness for C6: scenario D — candidates worth 40 and 55 points end
at value 55 in either processing order. -/
theorem record_fold_monotone_and_order_independent_witness :
    (([cand40, cand55] : List RecordCandidate).Perm [cand55, cand40]
      ∧ recordValue (foldRecords Option.none [cand40, cand55])
          = recordValue (foldRecords Option.none [cand55, cand40]))
    ∧ recordValue (foldRecords Option.none [cand40, cand55])
        = ((55 : Rat) : WithBot Rat) := by
  have hp : ([cand40, cand55] : List RecordCandidate).Perm [cand55, cand40] := by
    decide
  exact ⟨⟨hp, (record_fold_monotone_and_order_independent Option.none cand40 []
    [cand40, cand55] [cand55, cand40]).2.2.2 hp⟩, by decide⟩

/-- C5: `_try_update_max` replaces the record iff it is unset or the
candidate's value is strictly greater; on a tie (or lower value) the
incumbent is kept unchanged; the stored value never decreases. -/
theorem try_update_max_replaces_iff_strictly_greater :
    ∀ (current : Option SingleGameRecord) (candidate : RecordCandidate),
      (_try_update_max Option.none candidate = some (candidateRecord candidate))
      ∧ (∀ r, current = some r → r.value < candidate.value →
          _try_update_max current candidate = some (candidateRecord candidate))
      ∧ (∀ r, current = some r → candidate.value ≤ r.value →
          _try_update_max current candidate = some r)
      ∧ (∀ r, current = some r →
          ∃ rr, _try_update_max current candidate = some rr ∧ r.value ≤ rr.value) := by
  intro current candidate
  refine ⟨rfl, ?_, ?_, ?_⟩
  · rintro r rfl h
    simp [_try_update_max, h]
  · rintro r rfl h
    simp [_try_update_max, not_lt.mpr h]
  · rintro r rfl
    by_cases h : r.value < candidate.value
    · exact ⟨candidateRecord candidate, by simp [_try_update_max, h], le_of_lt h⟩
    · exact ⟨r, by simp [_try_update_max, h], le_refl _⟩

/-- Witness for C5: a tying 40-point candidate does not displace the
40-point incumbent, while a 55-point candidate does. -/
theorem try_update_max_replaces_iff_strictly_greater_witness :
    _try_update_max (some rec40) cand40 = some rec40
    ∧ _try_update_max (some rec40) cand55 = some (candidateRecord cand55) := by
  exact ⟨(try_update_max_replaces_iff_strictly_greater (some rec40) cand40).2.2.1
      rec40 rfl (by decide),
    (try_update_max_replaces_iff_strictly_greater (some rec40) cand55).2.1
      rec40 rfl (by decide)⟩

/-- C4: a row appends a double-double iff exactly 2 of the five tracked
count stats are ≥ 10, a triple-double iff 3 or more are, never both; the
scenario-C row (15 points, 11 rebounds, 4 assists, 2 steals, 1 block)
yields exactly one double-double with categories points and rebounds and
no triple-double. -/
theorem double_triple_classification :
    ∀ (records : RecordsData) (row : EventPlayerRow)
      (pid tid oid : Option Int) (gurl : Option String),
      ((_check_double_triple_doubles records row pid tid oid gurl).double_doubles.length
          = records.double_doubles.length
            + (if (doubleDigitCategories row).length = 2 then 1 else 0))
      ∧ ((_check_double_triple_doubles records row pid tid oid gurl).triple_doubles.length
          = records.triple_doubles.length
            + (if 3 ≤ (doubleDigitCategories row).length then 1 else 0))
      ∧ ¬(records.double_doubles.length
            < (_check_double_triple_doubles records row pid tid oid gurl).double_doubles.length
          ∧ records.triple_doubles.length
            < (_check_double_triple_doubles records row pid tid oid gurl).triple_doubles.length)
      ∧ ((_check_double_triple_doubles {} scenarioCRow Option.none Option.none
            Option.none Option.none).double_doubles.map
              (fun d => d.categories) = [["points", "rebounds"]]
          ∧ (_check_double_triple_doubles {} scenarioCRow Option.none Option.none
              Option.none Option.none).triple_doubles = []) := by
  intro records row pid tid oid gurl
  have hlen : ((doubleDigitCategories row).map (fun p => p.1)).length
      = (doubleDigitCategories row).length := List.length_map _ _
  by_cases h3 : 3 ≤ (doubleDigitCategories row).length
  · have h2 : ¬(doubleDigitCategories row).length = 2 := by omega
    refine ⟨?_, ?_, ?_, by decide⟩
    · simp [_check_double_triple_doubles, hlen, h3, h2]
    · simp [_check_double_triple_doubles, hlen, h3]
    · simp [_check_double_triple_doubles, hlen, h3]
  · by_cases h2 : 2 ≤ (doubleDigitCategories row).length
    · have h2' : (doubleDigitCategories row).length = 2 := by omega
      refine ⟨?_, ?_, ?_, by decide⟩
      · simp [_check_double_triple_doubles, hlen, h3, h2, h2']
      · simp [_check_double_triple_doubles, hlen, h3, h2]
      · simp [_check_double_triple_doubles, hlen, h3, h2]
    · have h2' : ¬(doubleDigitCategories row).length = 2 := by omega
      refine ⟨?_, ?_, ?_, by decide⟩
      · simp [_check_double_triple_doubles, hlen, h3, h2, h2']
      · simp [_check_double_triple_doubles, hlen, h3, h2]
      · simp [_check_double_triple_doubles, hlen, h3, h2]

/-- C2: each top-N leaders sequence has length at most N, lists only
strictly positive values, and is sorted by value descending with ties
broken by case-insensitive name ascending; scenario A (rows A:30, B:30,
C:25 for points, N=3) yields [(A,30), (B,30), (C,25)]. -/
theorem topn_leaders_spec :
    ∀ (players : List PlayerStats) (stat : String) (n : Nat),
      (leadersFor players stat n).length ≤ n
      ∧ (∀ e ∈ leadersFor players stat n, 0 < e.value)
      ∧ List.Pairwise
          (fun a b : LeaderEntry =>
            b.value < a.value ∨ (a.value = b.value ∧ pyStrLe (pyLower a.name) (pyLower b.name) = true))
          (leadersFor players stat n)
      ∧ top_n_season_leaders players n =
          { points := leadersFor players "points" n,
            assists := leadersFor players "assists" n,
            rebounds := leadersFor players "rebounds" n,
            steals := leadersFor players "steals" n,
            blocks := leadersFor players "blocks" n,
            threes_made := leadersFor players "threes_made" n }
      ∧ leadersFor rowsABC "points" 3
          = [⟨"A", 30⟩, ⟨"B", 30⟩, ⟨"C", 25⟩] := by
  intro players stat n
  refine ⟨?_, ?_, ?_, rfl, by decide⟩
  · simp only [leadersFor, List.length_map]
    exact List.length_take_le _ _
  · intro e he
    simp only [leadersFor, List.mem_map] at he
    obtain ⟨p, hp, rfl⟩ := he
    have hp' : p ∈ List.insertionSort leaderLE (players.filterMap
        (fun q =>
          let value := getPlayerStat q stat
          if 0 < value then some (q.name, value) else none)) :=
      List.mem_of_mem_take hp
    have hp3 := (List.perm_insertionSort leaderLE _).mem_iff.mp hp'
    obtain ⟨q, _, hsome⟩ := List.mem_filterMap.mp hp3
    dsimp only at hsome
    by_cases h : 0 < getPlayerStat q stat
    · rw [if_pos h] at hsome
      cases hsome
      exact h
    · rw [if_neg h] at hsome
      exact absurd hsome (Option.noConfusion)
  · have hs : List.Pairwise leaderLE (_stable_sort_leaders players stat) :=
      List.sorted_insertionSort leaderLE _
    have ht : List.Pairwise leaderLE ((_stable_sort_leaders players stat).take n) :=
      hs.take
    exact List.Pairwise.map _
      (fun a b hab => by
        rcases hab with h | ⟨h1, h2⟩
        · exact Or.inl (neg_lt_neg_iff.mp h)
        · exact Or.inr ⟨neg_inj.mp h1, h2⟩)
      ht

/-- Helper: looked-up values of an association list whose stored lists
are duplicate-free are duplicate-free. -/
theorem lookup_getD_nodup :
    ∀ (l : List (String × List Int)), (∀ p ∈ l, p.2.Nodup) → ∀ s,
      ((l.lookup s).getD []).Nodup := by
  intro l
  induction l with
  | nil => intro _ s; simp
  | cons p t ih =>
    intro h s
    rcases p with ⟨k, v⟩
    simp only [List.lookup]
    cases hb : (s == k)
    · simpa using ih (fun q hq => h q (List.mem_cons_of_mem _ hq)) s
    · simpa using h ⟨k, v⟩ (List.mem_cons_self _ _)

/-- C3: for each player and tracked statistic, detection emits exactly
one notification per threshold in the statistic's list lying in
`(previous, current]` and not already announced, and none otherwise;
scenario B (previous 95, current 125 points, nothing announced) emits
exactly the threshold 100. -/
theorem detect_emits_each_new_crossing_once :
    ∀ (last_totals : LastTotals) (milestones_sent : MilestonesSent)
      (current_totals : List (Int × PlayerTotals))
      (player_id : Int) (pt : PlayerTotals) (stat : String) (t : Int),
      (detect_milestone_crossings current_totals last_totals milestones_sent
        = current_totals.flatMap
            (fun e => playerNotifications last_totals milestones_sent e.1 e.2))
      ∧ (∀ n ∈ playerStatNotifications last_totals milestones_sent player_id pt stat,
          n.player = pt.name ∧ n.stat = stat ∧ n.value = getStatTotal pt stat)
      ∧ ((playerStatNotifications last_totals milestones_sent player_id pt stat).filter
            (fun n => n.threshold == t)).length
          = (if t ∈ milestoneList stat
                ∧ ((((last_totals.lookup (toString player_id)).getD []).lookup stat).getD 0
                    < (t : Rat))
                ∧ ((t : Rat) ≤ getStatTotal pt stat)
                ∧ t ∉ ((((milestones_sent.lookup (toString player_id)).getD []).lookup
                    stat).getD [])
             then 1 else 0)
      ∧ ((playerStatNotifications lastAlice [] 1 alice "points").map
          (fun n => n.threshold) = [100]) := by
  intro last_totals milestones_sent current_totals player_id pt stat t
  refine ⟨rfl, ?_, ?_, by decide⟩
  · intro n hn
    simp only [playerStatNotifications, List.mem_map] at hn
    obtain ⟨x, _, rfl⟩ := hn
    exact ⟨rfl, rfl, rfl⟩
  · have hnodupL : (milestoneList stat).Nodup :=
      lookup_getD_nodup MILESTONES (by decide) stat
    set prev : Rat :=
      (((last_totals.lookup (toString player_id)).getD []).lookup stat).getD 0 with hprev
    set cur : Rat := getStatTotal pt stat with hcur
    set sent : List Int :=
      ((((milestones_sent.lookup (toString player_id)).getD []).lookup stat).getD [])
      with hsent
    have hshape : playerStatNotifications last_totals milestones_sent player_id pt stat
        = (((milestoneList stat).filter
              (fun x : Int => decide (prev < (x : Rat)) && decide ((x : Rat) ≤ cur))).filter
            (fun x : Int => !sent.contains x)).map
          (fun x : Int => (⟨pt.name, stat, cur, x⟩ : MilestoneNotification)) := rfl
    rw [hshape, List.filter_map, List.length_map]
    have hcomp : ((fun n : MilestoneNotification => n.threshold == t) ∘
        (fun x => (⟨pt.name, stat, cur, x⟩ : MilestoneNotification)))
        = fun x => x == t := rfl
    rw [hcomp]
    set ll := ((milestoneList stat).filter
        (fun x : Int => decide (prev < (x : Rat)) && decide ((x : Rat) ≤ cur))).filter
      (fun x : Int => !sent.contains x) with hll
    have hcount : (ll.filter (fun x => x == t)).length = ll.count t := by
      rw [← List.countP_eq_length_filter]
      rfl
    rw [hcount]
    have hnodup : ll.Nodup := by
      rw [hll]
      exact (hnodupL.filter _).filter _
    by_cases hin : t ∈ ll
    · rw [List.count_eq_one_of_mem hnodup hin]
      have hc := hin
      rw [hll] at hc
      simp only [List.mem_filter, Bool.and_eq_true, decide_eq_true_eq, Bool.not_eq_true',
        List.contains, List.elem_eq_mem, decide_eq_false_iff_not] at hc
      rw [if_pos ⟨hc.1.1, hc.1.2.1, hc.1.2.2, hc.2⟩]
    · rw [List.count_eq_zero_of_not_mem hin]
      rw [if_neg]
      intro hcond
      apply hin
      rw [hll]
      simp only [List.mem_filter, Bool.and_eq_true, decide_eq_true_eq, Bool.not_eq_true',
        List.contains, List.elem_eq_mem, decide_eq_false_iff_not]
      exact ⟨⟨hcond.1, hcond.2.1, hcond.2.2.1⟩, hcond.2.2.2⟩

/-- Helper: replacing the value under one key leaves lookups of other
keys unchanged. -/
theorem lookup_setKey_ne {β : Type} (k k' : String) (v : β) (h : k' ≠ k) :
    ∀ (d : List (String × β)), (setKey d k v).lookup k' = d.lookup k' := by
  have hbeq : (k' == k) = false := beq_eq_false_iff_ne.mpr h
  have hmap : ∀ (d : List (String × β)),
      (d.map (fun p => if p.1 == k then (k, v) else p)).lookup k' = d.lookup k' := by
    intro d
    induction d with
    | nil => rfl
    | cons p tail ih =>
      obtain ⟨pk, pv⟩ := p
      cases hp : (pk == k)
      · simp only [List.map_cons]
        rw [if_neg (by simp [hp])]
        simp only [List.lookup]
        cases hk' : (k' == pk)
        · simp only [hk']
          exact ih
        · simp only [hk']
      · have hpk : pk = k := eq_of_beq hp
        simp only [List.map_cons]
        rw [if_pos hp]
        simp only [List.lookup, hpk, hbeq]
        exact ih
  have happ : ∀ (d : List (String × β)),
      (d ++ [(k, v)]).lookup k' = d.lookup k' := by
    intro d
    induction d with
    | nil => simp [List.lookup, hbeq]
    | cons p tail ih =>
      obtain ⟨pk, pv⟩ := p
      simp only [List.cons_append, List.lookup]
      cases hk' : (k' == pk)
      · exact ih
      · rfl
  intro d
  unfold setKey
  split
  · exact hmap d
  · exact happ d

/-- Helper: after `setKey d k v`, looking up `k` yields `v`. -/
theorem lookup_setKey_self {β : Type} (k : String) (v : β) :
    ∀ (d : List (String × β)), (setKey d k v).lookup k = some v := by
  have hmap : ∀ (d : List (String × β)), (d.any (fun p => p.1 == k)) = true →
      (d.map (fun p => if p.1 == k then (k, v) else p)).lookup k = some v := by
    intro d
    induction d with
    | nil => intro hc; simp at hc
    | cons p tail ih =>
      intro hany
      obtain ⟨pk, pv⟩ := p
      cases hp : (pk == k)
      · have hne : (k == pk) = false := by
          cases hk : (k == pk)
          · rfl
          · have hkpk : k = pk := eq_of_beq hk
            subst hkpk
            simp [beq_self_eq_true] at hp
        simp only [List.map_cons]
        rw [if_neg (by simp [hp])]
        simp only [List.lookup, hne]
        apply ih
        simp only [List.any_cons, hp, Bool.false_or] at hany
        exact hany
      · simp only [List.map_cons]
        rw [if_pos hp]
        simp [List.lookup, beq_self_eq_true]
  have happ : ∀ (d : List (String × β)), (d.any (fun p => p.1 == k)) = false →
      (d ++ [(k, v)]).lookup k = some v := by
    intro d
    induction d with
    | nil => simp [List.lookup]
    | cons p tail ih =>
      intro hany
      obtain ⟨pk, pv⟩ := p
      simp only [List.any_cons, Bool.or_eq_false_iff] at hany
      have hne : (k == pk) = false := by
        cases hk : (k == pk)
        · rfl
        · have hkpk : k = pk := eq_of_beq hk
          have hp := hany.1
          subst hkpk
          simp [beq_self_eq_true] at hp
      simp only [List.cons_append, List.lookup, hne]
      exact ih (by simp [hany.2])
  intro d
  unfold setKey
  split
  · rename_i hany
    exact hmap d hany
  · rename_i hany
    exact happ d (Bool.eq_false_iff.mpr hany)

/-- C1 (code bug): with previous total 95, current total 125 and nothing
announced, detection fires the 100-point milestone; feeding the updated
`milestones_sent` back into a second detection over the same totals
fires it AGAIN, because `update_milestone_state` keys the sent map by
player name ("Alice") while detection reads it by player id ("1"). -/
theorem milestone_rerun_emits_again :
    (detect_milestone_crossings currAlice lastAlice []).length = 1
    ∧ ((detect_milestone_crossings currAlice lastAlice []).map
        (fun n => (n.player, n.stat, n.threshold)) = [("Alice", "points", 100)])
    ∧ ((update_milestone_state currAlice
        (detect_milestone_crossings currAlice lastAlice []) lastAlice []).2
          = [("Alice", [("points", [100])])])
    ∧ (detect_milestone_crossings currAlice lastAlice
        (update_milestone_state currAlice
          (detect_milestone_crossings currAlice lastAlice []) lastAlice []).2).length
        = 1 := by decide

/-- Counterexample for C10: player id 7 is absent from the current
totals, yet its `milestones_sent` entry is rewritten by the pass —
a current player NAMED "7" fires a milestone and the update step keys
the sent map by player name. -/
theorem stale_player_sent_entry_rewritten :
    (currBob.map (fun e => e.1) = [42])
    ∧ ((update_milestone_state currBob
        (detect_milestone_crossings currBob lastStale sentStale) lastStale
        sentStale).2.lookup "7" = some [("points", [100, 100])])
    ∧ (sentStale.lookup "7" = some [("points", [100])]) := by decide

/-- C10 (amended): a key that is neither the id string of any current
player nor the NAME of any current player keeps its `last_totals` and
`milestones_sent` entries unchanged across a detect-and-update pass, and
every emitted notification originates from a current player. -/
theorem stale_key_state_frame :
    ∀ (curr : List (Int × PlayerTotals)) (last : LastTotals)
      (sent : MilestonesSent) (key : String),
      (∀ e ∈ curr, toString e.1 ≠ key) →
      (∀ e ∈ curr, e.2.name ≠ key) →
      ((update_milestone_state curr (detect_milestone_crossings curr last sent)
          last sent).1.lookup key = last.lookup key)
      ∧ ((update_milestone_state curr (detect_milestone_crossings curr last sent)
          last sent).2.lookup key = sent.lookup key)
      ∧ (∀ n ∈ detect_milestone_crossings curr last sent,
          ∃ e ∈ curr, n.player = e.2.name) := by
  intro curr last sent key h1 h2
  have hprov : ∀ n ∈ detect_milestone_crossings curr last sent,
      ∃ e ∈ curr, n.player = e.2.name := by
    intro n hn
    simp only [detect_milestone_crossings, List.mem_flatMap] at hn
    obtain ⟨e, he, hn2⟩ := hn
    refine ⟨e, he, ?_⟩
    simp only [playerNotifications, List.mem_flatMap] at hn2
    obtain ⟨s, _, hn3⟩ := hn2
    simp only [playerStatNotifications, List.mem_map] at hn3
    obtain ⟨x, _, rfl⟩ := hn3
    rfl
  refine ⟨?_, ?_, hprov⟩
  · have frame1 : ∀ (l : List (Int × PlayerTotals)) (acc : LastTotals),
        (∀ e ∈ l, toString e.1 ≠ key) →
        (l.foldl (fun acc e => setKey acc (toString e.1) (statTotalsDict e.2))
          acc).lookup key = acc.lookup key := by
      intro l
      induction l with
      | nil => intro acc _; rfl
      | cons e tail ih =>
        intro acc hl
        calc (List.foldl (fun acc e => setKey acc (toString e.1) (statTotalsDict e.2))
            acc (e :: tail)).lookup key
            = (setKey acc (toString e.1) (statTotalsDict e.2)).lookup key :=
              ih _ (fun q hq => hl q (List.mem_cons_of_mem _ hq))
          _ = acc.lookup key :=
              lookup_setKey_ne _ _ _ (Ne.symm (hl e (List.mem_cons_self _ _))) acc
    exact frame1 curr last h1
  · have frame2 : ∀ (ns : List MilestoneNotification) (acc : MilestonesSent),
        (∀ n ∈ ns, n.player ≠ key) →
        (ns.foldl
          (fun acc n =>
            let d := (acc.lookup n.player).getD []
            let ts := (d.lookup n.stat).getD []
            setKey acc n.player (setKey d n.stat (ts ++ [n.threshold])))
          acc).lookup key = acc.lookup key := by
      intro ns
      induction ns with
      | nil => intro acc _; rfl
      | cons n tail ih =>
        intro acc hl
        calc (List.foldl _ acc (n :: tail)).lookup key
            = (setKey acc n.player
                (setKey ((acc.lookup n.player).getD []) n.stat
                  ((((acc.lookup n.player).getD []).lookup n.stat).getD []
                    ++ [n.threshold]))).lookup key :=
              ih _ (fun q hq => hl q (List.mem_cons_of_mem _ hq))
          _ = acc.lookup key :=
              lookup_setKey_ne _ _ _ (Ne.symm (hl n (List.mem_cons_self _ _))) acc
    exact frame2 _ _ (fun n hn => by
      obtain ⟨e, he, hpe⟩ := hprov n hn
      rw [hpe]
      exact h2 e he)

/-- Witness for the amended C10 theorem at concrete inputs. -/
theorem stale_key_state_frame_witness :
    ((update_milestone_state currAlice
        (detect_milestone_crossings currAlice lastAlice []) lastAlice []).1.lookup "zz"
      = lastAlice.lookup "zz")
    ∧ ((update_milestone_state currAlice
        (detect_milestone_crossings currAlice lastAlice []) lastAlice []).2.lookup "zz"
      = ([] : MilestonesSent).lookup "zz") := by
  have h := stale_key_state_frame currAlice lastAlice [] "zz" (by decide) (by decide)
  exact ⟨h.1, h.2.1⟩

/-- Witness for C2 at scenario A: three leaders, the top entry's value
is positive. -/
theorem topn_leaders_spec_witness :
    (leadersFor rowsABC "points" 3).length ≤ 3
    ∧ (0 : Rat) < (⟨"A", 30⟩ : LeaderEntry).value := by
  have h := topn_leaders_spec rowsABC "points" 3
  exact ⟨h.1, h.2.1 ⟨"A", 30⟩ (by decide)⟩

/-- Witness for C3 at scenario B: player Alice going 95 → 125 points
with nothing announced yields exactly one notification for
threshold 100. -/
theorem detect_emits_each_new_crossing_once_witness :
    ((playerStatNotifications lastAlice [] 1 alice "points").filter
        (fun n => n.threshold == 100)).length = 1
    ∧ (playerStatNotifications lastAlice [] 1 alice "points").head?.map
        (fun n => n.player) = some "Alice" := by
  have h := (detect_emits_each_new_crossing_once lastAlice [] currAlice 1 alice
    "points" 100).2.2.1
  refine ⟨?_, by decide⟩
  rw [h]
  decide

/-- Witness for C4 at the scenario-C row: exactly two double-digit
categories, one double-double appended, no triple-double. -/
theorem double_triple_classification_witness :
    ((_check_double_triple_doubles {} scenarioCRow Option.none Option.none
        Option.none Option.none).double_doubles.length = 0 + 1)
    ∧ ((_check_double_triple_doubles {} scenarioCRow Option.none Option.none
        Option.none Option.none).triple_doubles.length = 0 + 0) := by
  have h := double_triple_classification {} scenarioCRow Option.none Option.none
    Option.none Option.none
  refine ⟨?_, ?_⟩
  · rw [h.1]
    decide
  · rw [h.2.1]
    decide

/-- C9: a failed event fetch yields a `RecordsData` with every record
unset and no achievements; one event whose extraction raises is skipped
and the scan over the remaining events is unchanged. -/
theorem records_failure_semantics :
    ∀ (e : String) (evs₁ evs₂ : List (List (String × PyObj)))
      (ev : List (String × PyObj)) (err : String),
      ((compute_single_game_records (.error e)).points = Option.none
        ∧ (compute_single_game_records (.error e)).rebounds = Option.none
        ∧ (compute_single_game_records (.error e)).assists = Option.none
        ∧ (compute_single_game_records (.error e)).steals = Option.none
        ∧ (compute_single_game_records (.error e)).blocks = Option.none
        ∧ (compute_single_game_records (.error e)).threes_made = Option.none
        ∧ (compute_single_game_records (.error e)).fg_percent = Option.none
        ∧ (compute_single_game_records (.error e)).threep_percent = Option.none
        ∧ (compute_single_game_records (.error e)).double_doubles = []
        ∧ (compute_single_game_records (.error e)).triple_doubles = [])
      ∧ (_extract_rows_from_event ev = .error err →
          compute_single_game_records (.ok (evs₁ ++ ev :: evs₂))
            = compute_single_game_records (.ok (evs₁ ++ evs₂))) := by
  intro e evs₁ evs₂ ev err
  refine ⟨⟨rfl, rfl, rfl, rfl, rfl, rfl, rfl, rfl, rfl, rfl⟩, ?_⟩
  intro h
  simp only [compute_single_game_records]
  rw [List.foldl_append, List.foldl_append, List.foldl_cons, h]

/-- Witness for C9: an event whose `meta` field is a list makes
extraction raise AttributeError, and the scan result equals the scan
without that event; a failed fetch leaves the points record unset. -/
theorem records_failure_semantics_witness :
    (_extract_rows_from_event evBadMeta = .error "AttributeError")
    ∧ (compute_single_game_records (.ok ([evGood] ++ evBadMeta :: []))
        = compute_single_game_records (.ok ([evGood] ++ [])))
    ∧ ((compute_single_game_records (.error "fetch failed")).points = Option.none) := by
  have hext : _extract_rows_from_event evBadMeta = .error "AttributeError" := rfl
  have h := records_failure_semantics "fetch failed" [evGood] [] evBadMeta
    "AttributeError"
  exact ⟨hext, h.2 hext, h.1.1⟩

/-- Counterexample for C8: extracting a boxscore-format event is NOT a
pure transform — the returned event differs from the input because the
boxscore row dict was given `team_id`/`opp_team_id` keys in place. -/
theorem extract_mutates_boxscore_rows :
    ¬ ((_extract_rows_from_event evBoxMin).map Prod.snd = Except.ok evBoxMin) := by
  intro h
  have h2 := congrArg (Except.map firstBoxRowKeys) h
  have e1 : Except.map firstBoxRowKeys ((_extract_rows_from_event evBoxMin).map Prod.snd)
      = Except.ok ["name", "pts", "team_id", "opp_team_id"] := rfl
  have e2 : Except.map firstBoxRowKeys
        (Except.ok evBoxMin : Except String (List (String × PyObj)))
      = Except.ok ["name", "pts"] := rfl
  rw [e1, e2] at h2
  injection h2 with h3
  exact absurd h3 (by decide)

/-- C8 (amended): extraction leaves the input event unchanged whenever
the boxscore fallback does not process a candidate — i.e. when the
performance path yields rows, or no boxscore candidate is truthy. -/
theorem extract_pure_without_fallback :
    ∀ (event : List (String × PyObj)) (rows : List EventPlayerRow)
      (ev' : List (String × PyObj)),
      _extract_rows_from_event event = .ok (rows, ev') →
      ((∃ r0, perfStageRows event = .ok r0 ∧ r0 ≠ []) ∨ noTruthyBox event = true) →
      ev' = event := by
  intro event rows ev' hex hcond
  rcases hp : perfStageRows event with e | r0 <;>
    simp only [_extract_rows_from_event, hp] at hex
  · exact absurd hex (by simp)
  rcases hm : nestedBoxLookup event "meta" with em | mb <;> rw [hm] at hex
  · exact absurd hex (by simp)
  rcases hr : nestedBoxLookup event "results" with er | rb <;> rw [hr] at hex
  · exact absurd hex (by simp)
  rcases hcond with ⟨r0', hr0', hne⟩ | hfalsy
  · rw [hp] at hr0'
    injection hr0' with hr0''
    subst hr0''
    have hni : r0.isEmpty = false := by
      cases hie : r0.isEmpty
      · rfl
      · exact absurd (List.isEmpty_iff.mp hie) hne
    simp only [boxFallbackStage, hni, Bool.false_eq_true, if_false] at hex
    injection hex with hx
    exact (congrArg Prod.snd hx).symm
  · have hf := hfalsy
    unfold noTruthyBox at hf
    rw [hm, hr] at hf
    simp only [Bool.and_eq_true, Bool.not_eq_true'] at hf
    obtain ⟨⟨hfm, hfb⟩, hfr⟩ := hf
    by_cases hie : r0.isEmpty
    · simp only [boxFallbackStage, hie, if_true, hfm, hfb, hfr, Bool.false_eq_true,
        if_false] at hex
      injection hex with hx
      exact (congrArg Prod.snd hx).symm
    · simp only [boxFallbackStage, hie, Bool.false_eq_true, if_false] at hex
      injection hex with hx
      exact (congrArg Prod.snd hx).symm

/-- Witness for the amended C8 theorem: a performance-format event is
returned unchanged. -/
theorem extract_pure_without_fallback_witness :
    (_extract_rows_from_event evPerf).map Prod.snd = Except.ok evPerf := by
  have hx : _extract_rows_from_event evPerf = .ok ([perfDemoRow], evPerf) := by
    decide
  have h := extract_pure_without_fallback evPerf [perfDemoRow] evPerf hx
    (Or.inl ⟨[perfDemoRow], by decide, by decide⟩)
  rw [hx]
  exact congrArg Except.ok h

/-- Counterexample for C7: in the boxscore fallback the header-sentinel
player id "0" is NOT skipped — the event's only boxscore row has id "0",
yet one row (with `player_id = 0`) is returned. -/
theorem boxscore_zero_id_row_returned :
    (_extract_rows_from_event evZeroId).map
        (fun pr => pr.1.map (fun r => (r.name, r.player_id)))
      = Except.ok [("Header", some 0)] := rfl

/-- Helper: stripping "0" player entries only touches the
`performance` key. -/
theorem strip_lookup_ne (event : List (String × PyObj)) (k : String)
    (h : k ≠ "performance") :
    (stripZeroPlayers event).lookup k = event.lookup k := by
  unfold stripZeroPlayers
  rcases hl : event.lookup "performance" with _ | v
  · rfl
  · cases v
    case dict entries =>
      simp only [dictSet]
      exact lookup_setKey_ne _ _ _ h event
    all_goals rfl

/-- Helper: the extraction context of a stripped event is unchanged. -/
theorem strip_context_eq (event : List (String × PyObj)) :
    eventDate (stripZeroPlayers event) = eventDate event
    ∧ eventGameUrl (stripZeroPlayers event) = eventGameUrl event
    ∧ eventTeamsVal (stripZeroPlayers event) = eventTeamsVal event
    ∧ eventTeamNames (stripZeroPlayers event) = eventTeamNames event
    ∧ nestedBoxLookup (stripZeroPlayers event) "meta" = nestedBoxLookup event "meta"
    ∧ (stripZeroPlayers event).lookup "boxscore" = event.lookup "boxscore"
    ∧ nestedBoxLookup (stripZeroPlayers event) "results"
        = nestedBoxLookup event "results" := by
  have hdate := strip_lookup_ne event "date" (by decide)
  have hdgmt := strip_lookup_ne event "date_gmt" (by decide)
  have hlink := strip_lookup_ne event "link" (by decide)
  have hteams := strip_lookup_ne event "teams" (by decide)
  have hta := strip_lookup_ne event "team_a" (by decide)
  have htb := strip_lookup_ne event "team_b" (by decide)
  have hmeta := strip_lookup_ne event "meta" (by decide)
  have hbox := strip_lookup_ne event "boxscore" (by decide)
  have hres := strip_lookup_ne event "results" (by decide)
  refine ⟨?_, ?_, ?_, ?_, ?_, hbox, ?_⟩
  · simp only [eventDate, hdate, hdgmt]
  · simp only [eventGameUrl, hlink]
  · simp only [eventTeamsVal, hteams]
  · simp only [eventTeamNames, eventTeamsVal, hteams, hta, htb]
  · simp only [nestedBoxLookup, hmeta]
  · simp only [nestedBoxLookup, hres]

/-- Helper: inside one team's performance dict, removing the "0" player
entries does not change the fold (the loop skips them). -/
theorem innerFold_strip (tk : String) (tv : PyObj) (ta tb d : String) (gv : PyObj) :
    ∀ (players : List (String × PyObj)) (acc : List EventPlayerRow),
      (players.filter (fun pe => pe.1 ≠ "0")).foldlM
          (perfPlayerStep tk tv ta tb d gv) acc
        = players.foldlM (perfPlayerStep tk tv ta tb d gv) acc := by
  intro players
  induction players with
  | nil => intro acc; rfl
  | cons pe tail ih =>
    intro acc
    by_cases hpe : pe.1 = "0"
    · rw [List.filter_cons, if_neg (by simp [hpe]), List.foldlM_cons,
        show perfPlayerStep tk tv ta tb d gv acc pe = pure acc from by
          simp [perfPlayerStep, hpe],
        pure_bind]
      exact ih acc
    · rw [List.filter_cons, if_pos (by simp [hpe]), List.foldlM_cons,
        List.foldlM_cons]
      exact congrArg (fun g => _ >>= g) (funext fun a => ih a)

/-- Helper: the performance double loop is unchanged when the "0" player
entries are removed, because it skips them. -/
theorem perfRowsOf_strip (tv : PyObj) (ta tb d : String) (gv : PyObj) :
    ∀ (entries : List (String × PyObj)) (acc : List EventPlayerRow),
      (entries.map stripTeamEntry).foldlM (perfTeamStep tv ta tb d gv) acc
        = entries.foldlM (perfTeamStep tv ta tb d gv) acc := by
  intro entries
  induction entries with
  | nil => intro acc; rfl
  | cons e tail ih =>
    intro acc
    rw [List.map_cons, List.foldlM_cons, List.foldlM_cons]
    have hstep : perfTeamStep tv ta tb d gv acc (stripTeamEntry e)
        = perfTeamStep tv ta tb d gv acc e := by
      obtain ⟨k, v⟩ := e
      cases v
      case dict players =>
        by_cases h0 : (k == "0") = true
        · simp [perfTeamStep, stripTeamEntry, h0]
        · simp only [stripTeamEntry, perfTeamStep, h0, Bool.false_eq_true, if_false]
          exact innerFold_strip k tv ta tb d gv players acc
      all_goals rfl
    rw [hstep]
    exact congrArg (fun g => _ >>= g) (funext fun a => ih a)

/-- Helper: the performance stage ignores the removed "0" player
entries entirely. -/
theorem strip_perfStageRows (event : List (String × PyObj)) :
    perfStageRows (stripZeroPlayers event) = perfStageRows event := by
  obtain ⟨hd, hg, htv, htn, _, _, _⟩ := strip_context_eq event
  rcases hl : event.lookup "performance" with _ | v
  · have hse : stripZeroPlayers event = event := by
      unfold stripZeroPlayers
      rw [hl]
    rw [hse]
  · cases v
    case dict entries =>
      have hsl : (stripZeroPlayers event).lookup "performance"
          = some (.dict (entries.map stripTeamEntry)) := by
        unfold stripZeroPlayers
        rw [hl]
        simp only [dictSet]
        exact lookup_setKey_self _ _ event
      unfold perfStageRows
      rw [hsl, hl, hd, hg, htv, htn]
      have hlen : (entries.map stripTeamEntry).isEmpty = entries.isEmpty := by
        cases entries <;> rfl
      show (if (!(entries.map stripTeamEntry).isEmpty) = true then
          perfRowsOf (entries.map stripTeamEntry) (eventTeamsVal event)
            (eventTeamNames event).1 (eventTeamNames event).2 (eventDate event)
            (eventGameUrl event)
        else pure [])
        = (if (!entries.isEmpty) = true then
          perfRowsOf entries (eventTeamsVal event) (eventTeamNames event).1
            (eventTeamNames event).2 (eventDate event) (eventGameUrl event)
        else pure [])
      rw [hlen]
      by_cases he : entries.isEmpty = true
      · simp only [he, Bool.not_true, Bool.false_eq_true, if_false]
      · have he' : entries.isEmpty = false := Bool.eq_false_iff.mpr he
        simp only [he', Bool.not_false, if_true]
        exact perfRowsOf_strip (eventTeamsVal event) (eventTeamNames event).1
          (eventTeamNames event).2 (eventDate event) (eventGameUrl event) entries []
    all_goals {
      have hse : stripZeroPlayers event = event := by
        unfold stripZeroPlayers
        rw [hl]
      rw [hse] }

/-- Helper: the boxscore fallback's extracted rows do not depend on the
event dict it splices the mutation into. -/
theorem boxFallback_fst_eq (ev₁ ev₂ : List (String × PyObj))
    (rows : List EventPlayerRow) (m b r : Option PyObj) (tv : PyObj)
    (ta tb d : String) (gv : PyObj) :
    (boxFallbackStage ev₁ rows m b r tv ta tb d gv).map Prod.fst
      = (boxFallbackStage ev₂ rows m b r tv ta tb d gv).map Prod.fst := by
  unfold boxFallbackStage
  by_cases h1 : rows.isEmpty = true
  · simp only [h1, if_true]
    by_cases h2 : pyTruthyOpt m = true
    · simp only [h2, if_true]
      rcases hpb : processBox (m.getD .none) tv ta tb d gv with e | pr <;> rfl
    · rw [if_neg h2, if_neg h2]
      by_cases h3 : pyTruthyOpt b = true
      · simp only [h3, if_true]
        rcases hpb : processBox (b.getD .none) tv ta tb d gv with e | pr <;> rfl
      · rw [if_neg h3, if_neg h3]
        by_cases h4 : pyTruthyOpt r = true
        · simp only [h4, if_true]
          rcases hpb : processBox (r.getD .none) tv ta tb d gv with e | pr <;> rfl
        · rw [if_neg h4, if_neg h4]
          rfl
  · rw [if_neg h1, if_neg h1]
    rfl

/-- C7 (amended): the performance-format path skips header-sentinel "0"
player entries — removing them from the event never changes the
extracted rows; the boxscore fallback does NOT skip them (see the
counterexample). -/
theorem extract_skips_zero_performance_entries :
    ∀ (event : List (String × PyObj)),
      (_extract_rows_from_event (stripZeroPlayers event)).map Prod.fst
        = (_extract_rows_from_event event).map Prod.fst := by
  intro event
  obtain ⟨hd, hg, htv, htn, hm, hb, hr⟩ := strip_context_eq event
  have hps := strip_perfStageRows event
  unfold _extract_rows_from_event
  rw [hps, hm, hr, hb, htv, htn, hd, hg]
  rcases perfStageRows event with e | rows
  · rfl
  rcases nestedBoxLookup event "meta" with em | mb
  · rfl
  rcases nestedBoxLookup event "results" with er | rb
  · rfl
  exact boxFallback_fst_eq (stripZeroPlayers event) event rows mb
    (event.lookup "boxscore") rb (eventTeamsVal event) (eventTeamNames event).1
    (eventTeamNames event).2 (eventDate event) (eventGameUrl event)
